import Mathlib

/-!
Shallow embedding of the latency tuner core of roc-toolkit.

The given sources contain the header
src/internal_modules/roc_audio/latency_tuner.h, which declares the data
model (LatencyTunerBackend, LatencyTunerProfile, LatencyConfig,
LatencyMetrics) and the LatencyTuner class with its private state.  The
companion implementation file (latency_tuner.cpp) is not among the given
sources, so the bodies of the LatencyTuner operations are modelled from
the specification (sections 4.2 to 4.9 of spec.md), as noted on each
definition.

Modelling conventions:
- durations (core::nanoseconds_t, an int64) are modelled as Int; no
  arithmetic here approaches the int64 range, so overflow is immaterial;
- sample counts (packet::stream_timestamp_t) are modelled as Nat and
  sample differences (packet::stream_timestamp_diff_t) as Int;
- the float correction coefficient and scaling tolerance are modelled as
  Rat, with exact clamping order semantics;
- the FreqEstimator collaborator is external to this core (spec section
  1); it is modelled as an arbitrary state machine over a type sigma,
  supplied at construction, so that all theorems hold for every possible
  estimator behaviour.
-/

namespace roc

/-- Constant core::Millisecond from roc_core/time.h (not among the given
sources): the number of nanoseconds in one millisecond. -/
def Millisecond : Int := 1000000

namespace audio

/-- Enum LatencyTunerBackend from latency_tuner.h. -/
inductive LatencyTunerBackend where
  | LatencyTunerBackend_Default
  | LatencyTunerBackend_Niq
  | LatencyTunerBackend_E2e
deriving DecidableEq

export LatencyTunerBackend (LatencyTunerBackend_Default LatencyTunerBackend_Niq LatencyTunerBackend_E2e)

/-- Enum LatencyTunerProfile from latency_tuner.h. -/
inductive LatencyTunerProfile where
  | LatencyTunerProfile_Default
  | LatencyTunerProfile_Intact
  | LatencyTunerProfile_Responsive
  | LatencyTunerProfile_Gradual
deriving DecidableEq

export LatencyTunerProfile (LatencyTunerProfile_Default LatencyTunerProfile_Intact LatencyTunerProfile_Responsive LatencyTunerProfile_Gradual)

/-- Struct LatencyConfig from latency_tuner.h.  Durations are Int
nanoseconds; the float scaling_tolerance is modelled as Rat. -/
structure LatencyConfig where
  tuner_backend : LatencyTunerBackend
  tuner_profile : LatencyTunerProfile
  target_latency : Int
  latency_tolerance : Int
  stale_tolerance : Int
  scaling_interval : Int
  scaling_tolerance : Rat

/-- Default constructor LatencyConfig() from latency_tuner.h lines 97
to 105: backend and profile Default, the three tri-state durations -1,
scaling_interval 5 milliseconds, scaling_tolerance 0.005. -/
def LatencyConfig.init : LatencyConfig where
  tuner_backend := LatencyTunerBackend_Default
  tuner_profile := LatencyTunerProfile_Default
  target_latency := -1
  latency_tolerance := -1
  stale_tolerance := -1
  scaling_interval := 5 * Millisecond
  scaling_tolerance := 5 / 1000

/-- Struct LatencyMetrics from latency_tuner.h: four nanosecond
durations. -/
structure LatencyMetrics where
  niq_latency : Int
  niq_stalling : Int
  e2e_latency : Int
  jitter : Int

/-- Default constructor LatencyMetrics() from latency_tuner.h: all four
measurements zero. -/
def LatencyMetrics.init : LatencyMetrics where
  niq_latency := 0
  niq_stalling := 0
  e2e_latency := 0
  jitter := 0

/-- Modelled from the spec: the sample-rate descriptor (SampleSpec, not
among the given sources) converts a nanosecond duration into a signed
count of samples at the given rate. -/
def ns_2_stream_timestamp_delta (sample_rate ns : Int) : Int :=
  ns * sample_rate / 1000000000

/-- Modelled from the spec: conversion of a nonnegative nanosecond
duration into an unsigned sample count. -/
def ns_2_stream_timestamp (sample_rate ns : Int) : Nat :=
  (ns * sample_rate / 1000000000).toNat

/-- Class LatencyTuner from latency_tuner.h: the private state listed on
lines 189 to 225.  The optional FreqEstimator fe_ is modelled as an
Option over an abstract estimator state sigma, together with the update
function of the estimator (an external collaborator, kept abstract);
sample_spec_ is modelled by the sample rate it carries. -/
structure LatencyTuner (σ : Type) where
  fe_ : Option σ
  fe_update : σ → Int → σ × Rat
  stream_pos_ : Nat
  update_interval_ : Nat
  update_pos_ : Nat
  report_interval_ : Nat
  report_pos_ : Nat
  freq_coeff_ : Rat
  freq_coeff_max_delta_ : Rat
  backend_ : LatencyTunerBackend
  profile_ : LatencyTunerProfile
  enable_checking_ : Bool
  enable_tuning_ : Bool
  has_niq_latency_ : Bool
  niq_latency_ : Int
  niq_stalling_ : Int
  has_e2e_latency_ : Bool
  e2e_latency_ : Int
  has_jitter_ : Bool
  jitter_ : Int
  target_latency_ : Int
  min_latency_ : Int
  max_latency_ : Int
  max_stalling_ : Int
  sample_spec_ : Int
  valid_ : Bool

namespace LatencyTuner

variable {σ : Type}

/-- Modelled from the spec: the LatencyTuner constructor (section 4.2,
latency_tuner.cpp not among the given sources).  Takes a resolved
configuration, the sample rate, the diagnostics interval in samples, and
the estimator implementation.  A target latency of exactly zero disables
both bounds checking and tuning (section 4.1); a latency tolerance of
zero disables bounds checking (section 4.6); the FreqEstimator is
constructed only if tuning is enabled and the profile is not Intact
(section 4.2).  Durations are converted to sample-domain units; with Int
arithmetic every conversion is representable, so validity reduces to the
positivity requirement on the sample-rate descriptor (section 6). -/
def mk_ (feInit : σ) (feUpdate : σ → Int → σ × Rat) (config : LatencyConfig)
    (sample_rate : Int) (report_interval : Nat) : LatencyTuner σ :=
  let enable_tuning := decide (config.target_latency ≠ 0)
  let enable_checking :=
    decide (config.target_latency ≠ 0) && decide (config.latency_tolerance ≠ 0)
  let target := ns_2_stream_timestamp_delta sample_rate config.target_latency
  let tol := ns_2_stream_timestamp_delta sample_rate config.latency_tolerance
  { fe_ := if enable_tuning && decide (config.tuner_profile ≠ LatencyTunerProfile_Intact)
        then some feInit else none
    fe_update := feUpdate
    stream_pos_ := 0
    update_interval_ := ns_2_stream_timestamp sample_rate config.scaling_interval
    update_pos_ := 0
    report_interval_ := report_interval
    report_pos_ := 0
    freq_coeff_ := 0
    freq_coeff_max_delta_ := config.scaling_tolerance
    backend_ := config.tuner_backend
    profile_ := config.tuner_profile
    enable_checking_ := enable_checking
    enable_tuning_ := enable_tuning
    has_niq_latency_ := false
    niq_latency_ := 0
    niq_stalling_ := 0
    has_e2e_latency_ := false
    e2e_latency_ := 0
    has_jitter_ := false
    jitter_ := 0
    target_latency_ := target
    min_latency_ := target - tol
    max_latency_ := target + tol
    max_stalling_ := ns_2_stream_timestamp_delta sample_rate config.stale_tolerance
    sample_spec_ := sample_rate
    valid_ := decide (0 < sample_rate) }

/-- Validity query is_valid (spec section 4.2): immutable after
construction. -/
def is_valid (t : LatencyTuner σ) : Bool :=
  t.valid_

/-- Coefficient query get_scaling (spec section 4.9): returns the stored
coefficient; 0 is the sentinel for never computed. -/
def get_scaling (t : LatencyTuner σ) : Rat :=
  t.freq_coeff_

/-- Modelled from the spec: metrics ingestion write_metrics (section
4.3, latency_tuner.cpp not among the given sources).  Unconditionally
replaces the buffered snapshot, converted to sample-domain units, and
marks each observed flag according to whether meaningful (positive) data
for that sub-measurement has ever been supplied.  Never triggers the
control algorithm. -/
def write_metrics (t : LatencyTuner σ) (metrics : LatencyMetrics) : LatencyTuner σ :=
  { t with
    has_niq_latency_ := t.has_niq_latency_ || decide (0 < metrics.niq_latency)
      || decide (0 < metrics.niq_stalling)
    niq_latency_ := ns_2_stream_timestamp_delta t.sample_spec_ metrics.niq_latency
    niq_stalling_ := ns_2_stream_timestamp_delta t.sample_spec_ metrics.niq_stalling
    has_e2e_latency_ := t.has_e2e_latency_ || decide (0 < metrics.e2e_latency)
    e2e_latency_ := ns_2_stream_timestamp_delta t.sample_spec_ metrics.e2e_latency
    has_jitter_ := t.has_jitter_ || decide (0 < metrics.jitter)
    jitter_ := ns_2_stream_timestamp_delta t.sample_spec_ metrics.jitter }

/-- Modelled from the spec: backend selection inside the update step
(section 4.5): the latency to evaluate, or none when the configured
backend has never been observed (a resolved configuration never carries
the Default backend; it selects nothing here). -/
def selected_latency (t : LatencyTuner σ) : Option Int :=
  match t.backend_ with
  | LatencyTunerBackend_Niq =>
    if t.has_niq_latency_ then some t.niq_latency_ else none
  | LatencyTunerBackend_E2e =>
    if t.has_e2e_latency_ then some t.e2e_latency_ else none
  | LatencyTunerBackend_Default => none

/-- Modelled from the spec: the bounds check check_bounds_ (section
4.6): pure threshold test, true when the candidate latency lies inside
the interval from min_latency_ to max_latency_. -/
def check_bounds_ (t : LatencyTuner σ) (latency : Int) : Bool :=
  decide (t.min_latency_ ≤ latency) && decide (latency ≤ t.max_latency_)

/-- Modelled from the spec: the stalling suppression condition of the
update step (section 4.5): the stalling measurement exceeds the enabled
(nonzero) stalling tolerance. -/
def stall_suppressed (t : LatencyTuner σ) : Bool :=
  decide (0 < t.max_stalling_) && decide (t.max_stalling_ < t.niq_stalling_)

/-- Modelled from the spec: the scaling computation compute_scaling_
(section 4.7): feed the signed deviation into the estimator, clamp the
raw coefficient into the interval from 1 - scaling_tolerance to
1 + scaling_tolerance, store it.  A no-op when no estimator was
constructed (presence is checked before each use, section 9). -/
def compute_scaling_ (t : LatencyTuner σ) (latency : Int) : LatencyTuner σ :=
  match t.fe_ with
  | none => t
  | some fe =>
    let r := t.fe_update fe (latency - t.target_latency_)
    { t with
      fe_ := some r.1
      freq_coeff_ :=
        max (1 - t.freq_coeff_max_delta_) (min r.2 (1 + t.freq_coeff_max_delta_)) }

/-- Modelled from the spec: the update step update_ (section 4.5).
Select the latency by backend (no-op success when never observed).  A
bounds violation fails the update unless suppressed by stalling; if
tuning is enabled the scaling computation runs regardless of the
bounds-check outcome. -/
def update_ (t : LatencyTuner σ) : LatencyTuner σ × Bool :=
  match t.selected_latency with
  | none => (t, true)
  | some latency =>
    let ok := !(t.enable_checking_ && !(t.check_bounds_ latency)
      && !t.stall_suppressed)
    (if t.enable_tuning_ then t.compute_scaling_ latency else t, ok)

/-- Modelled from the spec: the sample-counter increment at the start of
the block-advance scheduler (section 4.4). -/
def tick (t : LatencyTuner σ) (n_samples : Nat) : LatencyTuner σ :=
  { t with stream_pos_ := t.stream_pos_ + n_samples }

/-- Modelled from the spec: the tuning-cadence condition of the
block-advance scheduler (section 4.4): the elapsed samples since the
last tuning update reached or exceeded the tuning interval. -/
def fires (t : LatencyTuner σ) : Bool :=
  decide (t.update_interval_ ≤ t.stream_pos_ - t.update_pos_)

/-- Modelled from the spec: the diagnostics-cadence condition of the
block-advance scheduler (section 4.4). -/
def report_fires (t : LatencyTuner σ) : Bool :=
  decide (t.report_interval_ ≤ t.stream_pos_ - t.report_pos_)

/-- Modelled from the spec: the block-advance scheduler advance_stream
(section 4.4).  Increments the sample counter; runs the update step when
the tuning interval elapsed, resetting the tuning phase to the current
position; emits diagnostics (which mutate only the diagnostics phase
counter, section 4.8) when that interval elapsed.  Reports failure iff
the update step ran and reported a bounds violation. -/
def advance_stream (t : LatencyTuner σ) (n_samples : Nat) : LatencyTuner σ × Bool :=
  let t1 := t.tick n_samples
  let r :=
    if t1.fires then
      let u := t1.update_
      ({ u.1 with update_pos_ := t1.stream_pos_ }, u.2)
    else (t1, true)
  let t2 :=
    if r.1.report_fires then { r.1 with report_pos_ := r.1.stream_pos_ } else r.1
  (t2, r.2)

end LatencyTuner

/-- A session event at the tuner boundary (spec section 2): either the
measurement producer writes a metrics snapshot, or the pipeline advances
the stream by a block of samples. -/
inductive TunerEvent where
  | write (metrics : LatencyMetrics)
  | advance (n_samples : Nat)

namespace LatencyTuner

variable {σ : Type}

/-- State transition of the tuner under one session event. -/
def step (t : LatencyTuner σ) : TunerEvent → LatencyTuner σ
  | .write metrics => t.write_metrics metrics
  | .advance n_samples => (t.advance_stream n_samples).1

/-- Success flag of one session event: metrics writes always succeed,
block advances report the advance_stream flag. -/
def event_ok (t : LatencyTuner σ) : TunerEvent → Bool
  | .write _ => true
  | .advance n_samples => (t.advance_stream n_samples).2

/-- Run the tuner over a list of session events. -/
def run (t : LatencyTuner σ) : List TunerEvent → LatencyTuner σ
  | [] => t
  | e :: es => (t.step e).run es

/-- Whether every event of the run reports success. -/
def all_ok (t : LatencyTuner σ) : List TunerEvent → Bool
  | [] => true
  | e :: es => t.event_ok e && (t.step e).all_ok es

/-- Whether an invocation of the update step on this state would execute
the scaling computation and store a coefficient: a latency is selected,
tuning is enabled and the estimator is present. -/
def scaling_would_run (t : LatencyTuner σ) : Bool :=
  t.selected_latency.isSome && t.enable_tuning_ && t.fe_.isSome

/-- How many scaling computations one session event executes (zero or
one). -/
def event_scalings (t : LatencyTuner σ) : TunerEvent → Nat
  | .write _ => 0
  | .advance n_samples =>
    if (t.tick n_samples).fires && (t.tick n_samples).scaling_would_run then 1 else 0

/-- How many scaling computations a run of session events executes. -/
def scaling_count (t : LatencyTuner σ) : List TunerEvent → Nat
  | [] => 0
  | e :: es => t.event_scalings e + (t.step e).scaling_count es

/-- How many update-step invocations a run of block advances executes. -/
def update_count (t : LatencyTuner σ) : List Nat → Nat
  | [] => 0
  | n :: rest =>
    (if (t.tick n).fires then 1 else 0) + ((t.advance_stream n).1).update_count rest

/-! Frame lemmas: which state components each operation leaves
unchanged. -/

section FrameLemmas

variable {σ : Type} (t : LatencyTuner σ) (latency : Int) (n : Nat) (e : TunerEvent)

@[simp] theorem compute_scaling_stream_pos :
    (t.compute_scaling_ latency).stream_pos_ = t.stream_pos_ := by
  unfold LatencyTuner.compute_scaling_
  cases hfe : t.fe_ <;> simp

@[simp] theorem compute_scaling_update_pos :
    (t.compute_scaling_ latency).update_pos_ = t.update_pos_ := by
  unfold LatencyTuner.compute_scaling_
  cases hfe : t.fe_ <;> simp

@[simp] theorem compute_scaling_update_interval :
    (t.compute_scaling_ latency).update_interval_ = t.update_interval_ := by
  unfold LatencyTuner.compute_scaling_
  cases hfe : t.fe_ <;> simp

@[simp] theorem compute_scaling_report_pos :
    (t.compute_scaling_ latency).report_pos_ = t.report_pos_ := by
  unfold LatencyTuner.compute_scaling_
  cases hfe : t.fe_ <;> simp

@[simp] theorem compute_scaling_report_interval :
    (t.compute_scaling_ latency).report_interval_ = t.report_interval_ := by
  unfold LatencyTuner.compute_scaling_
  cases hfe : t.fe_ <;> simp

@[simp] theorem compute_scaling_delta :
    (t.compute_scaling_ latency).freq_coeff_max_delta_ = t.freq_coeff_max_delta_ := by
  unfold LatencyTuner.compute_scaling_
  cases hfe : t.fe_ <;> simp

@[simp] theorem compute_scaling_enable_checking :
    (t.compute_scaling_ latency).enable_checking_ = t.enable_checking_ := by
  unfold LatencyTuner.compute_scaling_
  cases hfe : t.fe_ <;> simp

@[simp] theorem compute_scaling_enable_tuning :
    (t.compute_scaling_ latency).enable_tuning_ = t.enable_tuning_ := by
  unfold LatencyTuner.compute_scaling_
  cases hfe : t.fe_ <;> simp

theorem compute_scaling_fe_none (hfe : t.fe_ = none) :
    (t.compute_scaling_ latency).fe_ = none := by
  unfold LatencyTuner.compute_scaling_
  rw [hfe]
  exact hfe

theorem compute_scaling_coeff_of_fe_none (hfe : t.fe_ = none) :
    (t.compute_scaling_ latency).freq_coeff_ = t.freq_coeff_ := by
  unfold LatencyTuner.compute_scaling_
  rw [hfe]

@[simp] theorem update_stream_pos :
    ((t.update_).1).stream_pos_ = t.stream_pos_ := by
  unfold LatencyTuner.update_
  cases hsel : t.selected_latency <;> simp <;> split <;> simp

@[simp] theorem update_update_pos :
    ((t.update_).1).update_pos_ = t.update_pos_ := by
  unfold LatencyTuner.update_
  cases hsel : t.selected_latency <;> simp <;> split <;> simp

@[simp] theorem update_update_interval :
    ((t.update_).1).update_interval_ = t.update_interval_ := by
  unfold LatencyTuner.update_
  cases hsel : t.selected_latency <;> simp <;> split <;> simp

@[simp] theorem update_report_pos :
    ((t.update_).1).report_pos_ = t.report_pos_ := by
  unfold LatencyTuner.update_
  cases hsel : t.selected_latency <;> simp <;> split <;> simp

@[simp] theorem update_report_interval :
    ((t.update_).1).report_interval_ = t.report_interval_ := by
  unfold LatencyTuner.update_
  cases hsel : t.selected_latency <;> simp <;> split <;> simp

@[simp] theorem update_delta :
    ((t.update_).1).freq_coeff_max_delta_ = t.freq_coeff_max_delta_ := by
  unfold LatencyTuner.update_
  cases hsel : t.selected_latency <;> simp <;> split <;> simp

@[simp] theorem update_enable_checking :
    ((t.update_).1).enable_checking_ = t.enable_checking_ := by
  unfold LatencyTuner.update_
  cases hsel : t.selected_latency <;> simp <;> split <;> simp

@[simp] theorem update_enable_tuning :
    ((t.update_).1).enable_tuning_ = t.enable_tuning_ := by
  unfold LatencyTuner.update_
  cases hsel : t.selected_latency <;> simp <;> split <;> simp

theorem update_fe_none (hfe : t.fe_ = none) :
    ((t.update_).1).fe_ = none := by
  unfold LatencyTuner.update_
  cases hsel : t.selected_latency
  · simpa using hfe
  · simp only
    split
    · exact compute_scaling_fe_none _ _ hfe
    · exact hfe

theorem update_coeff_of_fe_none (hfe : t.fe_ = none) :
    ((t.update_).1).freq_coeff_ = t.freq_coeff_ := by
  unfold LatencyTuner.update_
  cases hsel : t.selected_latency
  · simp
  · simp only
    split
    · exact compute_scaling_coeff_of_fe_none _ _ hfe
    · rfl

@[simp] theorem tick_stream_pos : (t.tick n).stream_pos_ = t.stream_pos_ + n := rfl

@[simp] theorem tick_update_pos : (t.tick n).update_pos_ = t.update_pos_ := rfl

@[simp] theorem tick_update_interval :
    (t.tick n).update_interval_ = t.update_interval_ := rfl

@[simp] theorem tick_report_pos : (t.tick n).report_pos_ = t.report_pos_ := rfl

@[simp] theorem tick_report_interval :
    (t.tick n).report_interval_ = t.report_interval_ := rfl

@[simp] theorem tick_freq_coeff : (t.tick n).freq_coeff_ = t.freq_coeff_ := rfl

@[simp] theorem tick_delta :
    (t.tick n).freq_coeff_max_delta_ = t.freq_coeff_max_delta_ := rfl

@[simp] theorem tick_enable_checking :
    (t.tick n).enable_checking_ = t.enable_checking_ := rfl

@[simp] theorem tick_enable_tuning :
    (t.tick n).enable_tuning_ = t.enable_tuning_ := rfl

@[simp] theorem tick_fe : (t.tick n).fe_ = t.fe_ := rfl

@[simp] theorem tick_selected_latency :
    (t.tick n).selected_latency = t.selected_latency := rfl

@[simp] theorem tick_scaling_would_run :
    (t.tick n).scaling_would_run = t.scaling_would_run := rfl

@[simp] theorem tick_stall_suppressed :
    (t.tick n).stall_suppressed = t.stall_suppressed := rfl

@[simp] theorem write_metrics_freq_coeff (metrics : LatencyMetrics) :
    (t.write_metrics metrics).freq_coeff_ = t.freq_coeff_ := rfl

@[simp] theorem write_metrics_delta (metrics : LatencyMetrics) :
    (t.write_metrics metrics).freq_coeff_max_delta_ = t.freq_coeff_max_delta_ := rfl

@[simp] theorem write_metrics_stream_pos (metrics : LatencyMetrics) :
    (t.write_metrics metrics).stream_pos_ = t.stream_pos_ := rfl

@[simp] theorem write_metrics_update_pos (metrics : LatencyMetrics) :
    (t.write_metrics metrics).update_pos_ = t.update_pos_ := rfl

@[simp] theorem write_metrics_report_pos (metrics : LatencyMetrics) :
    (t.write_metrics metrics).report_pos_ = t.report_pos_ := rfl

@[simp] theorem write_metrics_update_interval (metrics : LatencyMetrics) :
    (t.write_metrics metrics).update_interval_ = t.update_interval_ := rfl

@[simp] theorem write_metrics_report_interval (metrics : LatencyMetrics) :
    (t.write_metrics metrics).report_interval_ = t.report_interval_ := rfl

@[simp] theorem write_metrics_enable_checking (metrics : LatencyMetrics) :
    (t.write_metrics metrics).enable_checking_ = t.enable_checking_ := rfl

@[simp] theorem write_metrics_enable_tuning (metrics : LatencyMetrics) :
    (t.write_metrics metrics).enable_tuning_ = t.enable_tuning_ := rfl

@[simp] theorem write_metrics_fe (metrics : LatencyMetrics) :
    (t.write_metrics metrics).fe_ = t.fe_ := rfl

theorem advance_stream_pos :
    ((t.advance_stream n).1).stream_pos_ = t.stream_pos_ + n := by
  unfold LatencyTuner.advance_stream
  cases hf : (t.tick n).fires <;> simp [hf] <;> split <;> simp

theorem advance_update_interval :
    ((t.advance_stream n).1).update_interval_ = t.update_interval_ := by
  unfold LatencyTuner.advance_stream
  cases hf : (t.tick n).fires <;> simp [hf] <;> split <;> simp

theorem advance_update_pos :
    ((t.advance_stream n).1).update_pos_ =
      if (t.tick n).fires then t.stream_pos_ + n else t.update_pos_ := by
  unfold LatencyTuner.advance_stream
  cases hf : (t.tick n).fires <;> simp [hf] <;> split <;> simp

theorem advance_delta :
    ((t.advance_stream n).1).freq_coeff_max_delta_ = t.freq_coeff_max_delta_ := by
  unfold LatencyTuner.advance_stream
  cases hf : (t.tick n).fires <;> simp [hf] <;> split <;> simp

theorem advance_enable_checking :
    ((t.advance_stream n).1).enable_checking_ = t.enable_checking_ := by
  unfold LatencyTuner.advance_stream
  cases hf : (t.tick n).fires <;> simp [hf] <;> split <;> simp

theorem advance_enable_tuning :
    ((t.advance_stream n).1).enable_tuning_ = t.enable_tuning_ := by
  unfold LatencyTuner.advance_stream
  cases hf : (t.tick n).fires <;> simp [hf] <;> split <;> simp

theorem advance_fe_none (hfe : t.fe_ = none) :
    ((t.advance_stream n).1).fe_ = none := by
  unfold LatencyTuner.advance_stream
  cases hf : (t.tick n).fires
  · simp [hf]
    split <;> simpa using hfe
  · simp [hf]
    have hu : ((t.tick n).update_).1.fe_ = none := by
      apply update_fe_none
      simpa using hfe
    split <;> simpa using hu

theorem advance_coeff :
    ((t.advance_stream n).1).freq_coeff_ =
      if (t.tick n).fires then (((t.tick n).update_).1).freq_coeff_
      else t.freq_coeff_ := by
  unfold LatencyTuner.advance_stream
  cases hf : (t.tick n).fires <;> simp [hf] <;> split <;> simp

theorem advance_flag :
    (t.advance_stream n).2 =
      if (t.tick n).fires then ((t.tick n).update_).2 else true := by
  unfold LatencyTuner.advance_stream
  cases hf : (t.tick n).fires <;> simp [hf]

end FrameLemmas

section BehaviourLemmas

variable {σ : Type} (t : LatencyTuner σ) (n : Nat) (e : TunerEvent)

theorem clamp_mem (d raw : Rat) (hd : 0 ≤ d) :
    1 - d ≤ max (1 - d) (min raw (1 + d)) ∧
      max (1 - d) (min raw (1 + d)) ≤ 1 + d := by
  constructor
  · exact le_max_left _ _
  · apply max_le
    · linarith
    · exact min_le_right _ _

theorem update_ok_of_not_checking (h : t.enable_checking_ = false) :
    (t.update_).2 = true := by
  unfold LatencyTuner.update_
  rcases hsel : t.selected_latency with _ | lat
  · rfl
  · simp [h]

theorem update_ok_of_suppressed (h : t.stall_suppressed = true) :
    (t.update_).2 = true := by
  unfold LatencyTuner.update_
  rcases hsel : t.selected_latency with _ | lat
  · rfl
  · simp [h]

theorem update_coeff_of_not_run (h : t.scaling_would_run = false) :
    ((t.update_).1).freq_coeff_ = t.freq_coeff_ := by
  unfold LatencyTuner.scaling_would_run at h
  unfold LatencyTuner.update_
  rcases hsel : t.selected_latency with _ | lat
  · rfl
  · rw [hsel] at h
    simp only [Option.isSome_some, Bool.true_and, Bool.and_eq_false_imp] at h
    rcases htun : t.enable_tuning_ with _ | _
    · simp [htun]
    · have hfe : t.fe_ = none := by
        rcases hfe : t.fe_ with _ | fe
        · rfl
        · rw [htun, hfe] at h
          simp at h
      simp only [htun, if_true]
      exact compute_scaling_coeff_of_fe_none _ _ hfe

theorem update_coeff_of_run (h : t.scaling_would_run = true) :
    ∃ raw, ((t.update_).1).freq_coeff_ =
      max (1 - t.freq_coeff_max_delta_) (min raw (1 + t.freq_coeff_max_delta_)) := by
  unfold LatencyTuner.scaling_would_run at h
  rcases hsel : t.selected_latency with _ | lat
  · rw [hsel] at h
    simp at h
  rcases hfe : t.fe_ with _ | fe
  · rw [hfe] at h
    simp at h
  have htun : t.enable_tuning_ = true := by
    rw [hsel, hfe] at h
    simpa using h
  refine ⟨(t.fe_update fe (lat - t.target_latency_)).2, ?_⟩
  unfold LatencyTuner.update_
  rw [hsel]
  simp only [htun, if_true]
  unfold LatencyTuner.compute_scaling_
  rw [hfe]

theorem step_delta :
    (t.step e).freq_coeff_max_delta_ = t.freq_coeff_max_delta_ := by
  cases e with
  | write metrics => rfl
  | advance n => exact advance_delta t n

theorem step_enable_checking :
    (t.step e).enable_checking_ = t.enable_checking_ := by
  cases e with
  | write metrics => rfl
  | advance n => exact advance_enable_checking t n

theorem step_enable_tuning :
    (t.step e).enable_tuning_ = t.enable_tuning_ := by
  cases e with
  | write metrics => rfl
  | advance n => exact advance_enable_tuning t n

theorem step_fe_none (hfe : t.fe_ = none) : (t.step e).fe_ = none := by
  cases e with
  | write metrics => simpa using hfe
  | advance n => exact advance_fe_none t n hfe

theorem step_coeff_of_no_scaling (h : t.event_scalings e = 0) :
    (t.step e).freq_coeff_ = t.freq_coeff_ := by
  cases e with
  | write metrics => rfl
  | advance n =>
    simp only [LatencyTuner.event_scalings] at h
    rw [LatencyTuner.step, advance_coeff]
    rcases hf : (t.tick n).fires with _ | _
    · simp
    · rw [hf] at h
      simp only [Bool.true_and] at h
      have hrun : (t.tick n).scaling_would_run = false := by
        rcases hrun : (t.tick n).scaling_would_run with _ | _
        · rfl
        · rw [hrun] at h
          simp at h
      simp only [if_true]
      rw [update_coeff_of_not_run _ hrun]
      simp

theorem step_coeff_of_scaling (h : t.event_scalings e = 1) :
    ∃ raw, (t.step e).freq_coeff_ =
      max (1 - t.freq_coeff_max_delta_) (min raw (1 + t.freq_coeff_max_delta_)) := by
  cases e with
  | write metrics => simp [LatencyTuner.event_scalings] at h
  | advance n =>
    simp only [LatencyTuner.event_scalings] at h
    have hf : (t.tick n).fires = true := by
      rcases hf : (t.tick n).fires with _ | _
      · rw [hf] at h
        simp at h
      · rfl
    have hrun : (t.tick n).scaling_would_run = true := by
      rcases hrun : (t.tick n).scaling_would_run with _ | _
      · rw [hf, hrun] at h
        simp at h
      · rfl
    rw [LatencyTuner.step, advance_coeff, hf, if_pos rfl]
    obtain ⟨raw, hraw⟩ := update_coeff_of_run _ hrun
    refine ⟨raw, ?_⟩
    rw [hraw]
    simp

end BehaviourLemmas

section RunLemmas

variable {σ : Type}

theorem event_scalings_eq_zero_or_one (t : LatencyTuner σ) (e : TunerEvent) :
    t.event_scalings e = 0 ∨ t.event_scalings e = 1 := by
  cases e with
  | write metrics => exact Or.inl rfl
  | advance n =>
    simp only [LatencyTuner.event_scalings]
    split
    · exact Or.inr rfl
    · exact Or.inl rfl

theorem event_scalings_of_not_tuning (t : LatencyTuner σ) (e : TunerEvent)
    (h : t.enable_tuning_ = false) : t.event_scalings e = 0 := by
  cases e with
  | write metrics => rfl
  | advance n =>
    simp only [LatencyTuner.event_scalings, tick_scaling_would_run,
      LatencyTuner.scaling_would_run]
    simp
    intro _ _ htun
    rw [h] at htun
    cases htun

theorem event_scalings_of_fe_none (t : LatencyTuner σ) (e : TunerEvent)
    (h : t.fe_ = none) : t.event_scalings e = 0 := by
  cases e with
  | write metrics => rfl
  | advance n =>
    simp only [LatencyTuner.event_scalings, tick_scaling_would_run,
      LatencyTuner.scaling_would_run]
    simp
    intro _ _ _
    exact h

theorem run_delta (es : List TunerEvent) (t : LatencyTuner σ) :
    (t.run es).freq_coeff_max_delta_ = t.freq_coeff_max_delta_ := by
  induction es generalizing t with
  | nil => rfl
  | cons e es ih =>
    simp only [LatencyTuner.run]
    rw [ih, step_delta]

theorem run_fe_none (es : List TunerEvent) (t : LatencyTuner σ) (h : t.fe_ = none) :
    (t.run es).fe_ = none := by
  induction es generalizing t with
  | nil => exact h
  | cons e es ih =>
    simp only [LatencyTuner.run]
    exact ih (t.step e) (step_fe_none t e h)

theorem scaling_count_of_not_tuning (es : List TunerEvent) (t : LatencyTuner σ)
    (h : t.enable_tuning_ = false) : t.scaling_count es = 0 := by
  induction es generalizing t with
  | nil => rfl
  | cons e es ih =>
    simp only [LatencyTuner.scaling_count]
    rw [event_scalings_of_not_tuning t e h,
      ih (t.step e) (by rw [step_enable_tuning, h])]

theorem scaling_count_of_fe_none (es : List TunerEvent) (t : LatencyTuner σ)
    (h : t.fe_ = none) : t.scaling_count es = 0 := by
  induction es generalizing t with
  | nil => rfl
  | cons e es ih =>
    simp only [LatencyTuner.scaling_count]
    rw [event_scalings_of_fe_none t e h, ih (t.step e) (step_fe_none t e h)]

theorem run_coeff_of_count_zero (es : List TunerEvent) (t : LatencyTuner σ)
    (h : t.scaling_count es = 0) : (t.run es).freq_coeff_ = t.freq_coeff_ := by
  induction es generalizing t with
  | nil => rfl
  | cons e es ih =>
    simp only [LatencyTuner.scaling_count] at h
    have h0 : t.event_scalings e = 0 := by omega
    have h1 : (t.step e).scaling_count es = 0 := by omega
    simp only [LatencyTuner.run]
    rw [ih (t.step e) h1, step_coeff_of_no_scaling t e h0]

theorem run_coeff_mem (es : List TunerEvent) (t : LatencyTuner σ)
    (hd : 0 ≤ t.freq_coeff_max_delta_)
    (hlo : 1 - t.freq_coeff_max_delta_ ≤ t.freq_coeff_)
    (hhi : t.freq_coeff_ ≤ 1 + t.freq_coeff_max_delta_) :
    1 - t.freq_coeff_max_delta_ ≤ (t.run es).freq_coeff_ ∧
      (t.run es).freq_coeff_ ≤ 1 + t.freq_coeff_max_delta_ := by
  induction es generalizing t with
  | nil => exact ⟨hlo, hhi⟩
  | cons e es ih =>
    simp only [LatencyTuner.run]
    have hδ := step_delta t e
    rcases event_scalings_eq_zero_or_one t e with h0 | h1
    · have hc := step_coeff_of_no_scaling t e h0
      have hres := ih (t.step e) (by rw [hδ]; exact hd)
        (by rw [hδ, hc]; exact hlo) (by rw [hδ, hc]; exact hhi)
      rwa [hδ] at hres
    · obtain ⟨raw, hraw⟩ := step_coeff_of_scaling t e h1
      have hmem := clamp_mem t.freq_coeff_max_delta_ raw hd
      have hres := ih (t.step e) (by rw [hδ]; exact hd)
        (by rw [hδ, hraw]; exact hmem.1) (by rw [hδ, hraw]; exact hmem.2)
      rwa [hδ] at hres

theorem run_coeff_of_count_pos (es : List TunerEvent) (t : LatencyTuner σ)
    (hd : 0 ≤ t.freq_coeff_max_delta_) (h : 0 < t.scaling_count es) :
    1 - t.freq_coeff_max_delta_ ≤ (t.run es).freq_coeff_ ∧
      (t.run es).freq_coeff_ ≤ 1 + t.freq_coeff_max_delta_ := by
  induction es generalizing t with
  | nil => simp [LatencyTuner.scaling_count] at h
  | cons e es ih =>
    simp only [LatencyTuner.scaling_count] at h
    simp only [LatencyTuner.run]
    have hδ := step_delta t e
    rcases event_scalings_eq_zero_or_one t e with h0 | h1
    · rw [h0] at h
      have hres := ih (t.step e) (by rw [hδ]; exact hd) (by omega)
      rwa [hδ] at hres
    · obtain ⟨raw, hraw⟩ := step_coeff_of_scaling t e h1
      have hmem := clamp_mem t.freq_coeff_max_delta_ raw hd
      have hres := run_coeff_mem es (t.step e) (by rw [hδ]; exact hd)
        (by rw [hδ, hraw]; exact hmem.1) (by rw [hδ, hraw]; exact hmem.2)
      rwa [hδ] at hres

theorem event_ok_of_not_checking (t : LatencyTuner σ) (e : TunerEvent)
    (h : t.enable_checking_ = false) : t.event_ok e = true := by
  cases e with
  | write metrics => rfl
  | advance n =>
    rw [LatencyTuner.event_ok, advance_flag]
    split
    · exact update_ok_of_not_checking _ (by rw [tick_enable_checking]; exact h)
    · rfl

theorem all_ok_of_not_checking (es : List TunerEvent) (t : LatencyTuner σ)
    (h : t.enable_checking_ = false) : t.all_ok es = true := by
  induction es generalizing t with
  | nil => rfl
  | cons e es ih =>
    simp only [LatencyTuner.all_ok]
    rw [event_ok_of_not_checking t e h,
      ih (t.step e) (by rw [step_enable_checking, h])]
    rfl

end RunLemmas

section SchedulerLemmas

variable {σ : Type}

theorem update_count_replicate (b : Nat) (hb : 0 < b) (k : Nat) :
    ∀ (t : LatencyTuner σ), 0 < t.update_interval_ → b ∣ t.update_interval_ →
    b ∣ t.stream_pos_ →
    t.update_pos_ = t.update_interval_ * (t.stream_pos_ / t.update_interval_) →
    t.update_count (List.replicate k b) =
      (t.stream_pos_ + k * b) / t.update_interval_ -
        t.stream_pos_ / t.update_interval_ := by
  induction k with
  | zero =>
    intro t hI _ _ _
    simp [LatencyTuner.update_count]
  | succ k ih =>
    intro t hI hdvd hbs hup
    rw [List.replicate_succ]
    simp only [LatencyTuner.update_count]
    set I := t.update_interval_ with hIdef
    set s := t.stream_pos_ with hsdef
    have hqr : I * (s / I) + s % I = s := Nat.div_add_mod s I
    have hrI : s % I < I := Nat.mod_lt _ hI
    have hbr : b ∣ s % I := (Nat.dvd_mod_iff hdvd).mpr hbs
    have hgap : s + b - t.update_pos_ = s % I + b := by
      rw [hup]
      omega
    have hfires_eq : (t.tick b).fires = decide (I ≤ s % I + b) := by
      have h1 : (t.tick b).fires = decide (I ≤ s + b - t.update_pos_) := rfl
      rw [h1, hgap]
    have ha_stream : ((t.advance_stream b).1).stream_pos_ = s + b :=
      advance_stream_pos t b
    have ha_I : ((t.advance_stream b).1).update_interval_ = I :=
      advance_update_interval t b
    have ha_up : ((t.advance_stream b).1).update_pos_ =
        if (t.tick b).fires then s + b else t.update_pos_ :=
      advance_update_pos t b
    have hterm : s + (k + 1) * b = s + b + k * b := by ring
    by_cases hcase : I ≤ s % I + b
    · have hreq : s % I + b = I := by
        obtain ⟨c, hc⟩ := hbr
        obtain ⟨m, hm⟩ := hdvd
        have hcm : c < m := by
          have hlt : b * c < b * m := by omega
          exact Nat.lt_of_mul_lt_mul_left hlt
        have hbc1 : b * (c + 1) = b * c + b := by ring
        have hmc : m ≤ c + 1 := by
          have hle : b * m ≤ b * (c + 1) := by omega
          exact Nat.le_of_mul_le_mul_left hle hb
        have hmeq : m = c + 1 := by omega
        have hIeq : I = b * (c + 1) := by rw [hm, hmeq]
        omega
      have hfire : (t.tick b).fires = true := by
        rw [hfires_eq]
        simp [hcase]
      have hsb : s + b = I * (s / I) + I := by omega
      have hdiv : (s + b) / I = s / I + 1 := by
        have h1 : s + b = (s / I + 1) * I := by rw [hsb]; ring
        rw [h1, Nat.mul_div_cancel _ hI]
      have hrec := ih ((t.advance_stream b).1)
        (by rw [ha_I]; exact hI)
        (by rw [ha_I]; exact hdvd)
        (by rw [ha_stream]; exact Nat.dvd_add hbs dvd_rfl)
        (by
          rw [ha_up, hfire, if_pos rfl, ha_stream, ha_I, hdiv]
          rw [Nat.mul_add, Nat.mul_one]
          omega)
      rw [ha_stream, ha_I] at hrec
      rw [hfire, if_pos rfl, hrec, hterm]
      have hmono : (s + b) / I ≤ (s + b + k * b) / I :=
        Nat.div_le_div_right (by omega)
      omega
    · have hfire : (t.tick b).fires = false := by
        rw [hfires_eq]
        simp [hcase]
      have hdiv : (s + b) / I = s / I := by
        have h1 : s + b = s % I + b + I * (s / I) := by omega
        rw [h1, Nat.add_mul_div_left _ _ hI, Nat.div_eq_of_lt (by omega)]
        omega
      have hrec := ih ((t.advance_stream b).1)
        (by rw [ha_I]; exact hI)
        (by rw [ha_I]; exact hdvd)
        (by rw [ha_stream]; exact Nat.dvd_add hbs dvd_rfl)
        (by rw [ha_up, hfire, if_neg (by simp), ha_stream, ha_I, hdiv]; exact hup)
      rw [ha_stream, ha_I] at hrec
      rw [hfire, if_neg (by simp), hrec, hterm, hdiv]
      omega

end SchedulerLemmas

end LatencyTuner

end audio

end roc

open roc roc.audio roc.audio.LatencyTuner

/-! Concrete fixtures used by the witness theorems: the scenario of spec
section 8 (target 200 ms, tolerance 50 ms, rate 48000 Hz, network-queue
backend, Responsive profile), an estimator that always returns the raw
coefficient 100 (far outside every tolerance band), and metrics
snapshots for steady, divergent and stalled sessions. -/

def feConst : Unit → Int → Unit × Rat := fun s _ => (s, 100)

def cfgA : LatencyConfig where
  tuner_backend := LatencyTunerBackend_Niq
  tuner_profile := LatencyTunerProfile_Responsive
  target_latency := 200 * Millisecond
  latency_tolerance := 50 * Millisecond
  stale_tolerance := 100 * Millisecond
  scaling_interval := 5 * Millisecond
  scaling_tolerance := 5 / 1000

def tunerA : LatencyTuner Unit := LatencyTuner.mk_ () feConst cfgA 48000 48000

def metricsSteady : LatencyMetrics :=
  { LatencyMetrics.init with niq_latency := 200 * Millisecond }

def metricsDivergent : LatencyMetrics :=
  { LatencyMetrics.init with niq_latency := 400 * Millisecond }

def metricsStalled : LatencyMetrics :=
  { LatencyMetrics.init with
    niq_latency := 400 * Millisecond
    niq_stalling := 200 * Millisecond }

/-- C1: for every sequence of metrics writes and block advances, once at
least one scaling computation has stored a coefficient, the current
coefficient returned by get_scaling lies within the band from
1 - scaling_tolerance to 1 + scaling_tolerance, even when the frequency
estimator returns a raw coefficient far outside that band (the estimator
behaviour is universally quantified). -/
theorem C1_coefficient_within_tolerance {σ : Type} (feInit : σ)
    (feUpdate : σ → Int → σ × Rat) (config : LatencyConfig) (sample_rate : Int)
    (report_interval : Nat) (es : List TunerEvent)
    (htol : 0 ≤ config.scaling_tolerance)
    (hrun : 0 <
      (LatencyTuner.mk_ feInit feUpdate config sample_rate report_interval).scaling_count es) :
    1 - config.scaling_tolerance ≤
      ((LatencyTuner.mk_ feInit feUpdate config sample_rate report_interval).run es).get_scaling ∧
    ((LatencyTuner.mk_ feInit feUpdate config sample_rate report_interval).run es).get_scaling ≤
      1 + config.scaling_tolerance :=
  run_coeff_of_count_pos es
    (LatencyTuner.mk_ feInit feUpdate config sample_rate report_interval) htol hrun

/-- C1 witness: the fixture tuner with an estimator returning raw 100,
after one metrics write and one block of 240 samples, holds a
coefficient inside the band. -/
theorem C1_coefficient_within_tolerance_witness :
    0 ≤ cfgA.scaling_tolerance ∧
    0 < (LatencyTuner.mk_ () feConst cfgA 48000 48000).scaling_count
      [TunerEvent.write metricsSteady, TunerEvent.advance 240] ∧
    (1 - cfgA.scaling_tolerance ≤
      ((LatencyTuner.mk_ () feConst cfgA 48000 48000).run
        [TunerEvent.write metricsSteady, TunerEvent.advance 240]).get_scaling ∧
    ((LatencyTuner.mk_ () feConst cfgA 48000 48000).run
        [TunerEvent.write metricsSteady, TunerEvent.advance 240]).get_scaling ≤
      1 + cfgA.scaling_tolerance) :=
  ⟨by norm_num [cfgA], by decide,
    C1_coefficient_within_tolerance () feConst cfgA 48000 48000
      [TunerEvent.write metricsSteady, TunerEvent.advance 240]
      (by norm_num [cfgA]) (by decide)⟩

/-- C2: if the resolved latency_tolerance is zero, bounds checking is
disabled, and for every sequence of metrics writes and block advances
every advance_stream call returns success, however divergent the
latency. -/
theorem C2_zero_latency_tolerance_never_fails {σ : Type} (feInit : σ)
    (feUpdate : σ → Int → σ × Rat) (config : LatencyConfig) (sample_rate : Int)
    (report_interval : Nat) (es : List TunerEvent)
    (htol : config.latency_tolerance = 0) :
    (LatencyTuner.mk_ feInit feUpdate config sample_rate report_interval).all_ok es
      = true := by
  apply all_ok_of_not_checking
  simp [LatencyTuner.mk_, htol]

/-- C2 witness: with tolerance zero and wildly divergent metrics, the
whole run succeeds. -/
theorem C2_zero_latency_tolerance_never_fails_witness :
    ({ cfgA with latency_tolerance := 0 } : LatencyConfig).latency_tolerance = 0 ∧
    (LatencyTuner.mk_ () feConst { cfgA with latency_tolerance := 0 } 48000 48000).all_ok
      [TunerEvent.write metricsDivergent, TunerEvent.advance 240,
        TunerEvent.advance 240] = true :=
  ⟨rfl,
    C2_zero_latency_tolerance_never_fails () feConst
      { cfgA with latency_tolerance := 0 } 48000 48000
      [TunerEvent.write metricsDivergent, TunerEvent.advance 240,
        TunerEvent.advance 240] rfl⟩

/-- C3: when the selected latency is outside the resolved bounds while
the stalling measurement simultaneously exceeds the enabled nonzero
stalling tolerance, the update step does not report a bounds violation
and the enclosing advance_stream call succeeds. -/
theorem C3_stalling_suppresses_violation {σ : Type} (t : LatencyTuner σ)
    (n : Nat) (lat : Int)
    (hstale : 0 < t.max_stalling_) (hstall : t.max_stalling_ < t.niq_stalling_)
    (hsel : t.selected_latency = some lat)
    (hout : lat < t.min_latency_ ∨ t.max_latency_ < lat) :
    (t.update_).2 = true ∧ (t.advance_stream n).2 = true := by
  have hsup : t.stall_suppressed = true := by
    unfold LatencyTuner.stall_suppressed
    simp [hstale, hstall]
  constructor
  · exact update_ok_of_suppressed t hsup
  · rw [advance_flag]
    split
    · apply update_ok_of_suppressed
      rw [tick_stall_suppressed]
      exact hsup
    · rfl

/-- C3 witness: the fixture tuner after a stalled snapshot (latency
19200 samples, far above the bound 12000; stalling 9600 above the
tolerance 4800) still succeeds. -/
theorem C3_stalling_suppresses_violation_witness :
    0 < ((LatencyTuner.mk_ () feConst cfgA 48000 48000).write_metrics metricsStalled).max_stalling_ ∧
    ((LatencyTuner.mk_ () feConst cfgA 48000 48000).write_metrics metricsStalled).max_stalling_ <
      ((LatencyTuner.mk_ () feConst cfgA 48000 48000).write_metrics metricsStalled).niq_stalling_ ∧
    ((LatencyTuner.mk_ () feConst cfgA 48000 48000).write_metrics metricsStalled).selected_latency
      = some 19200 ∧
    ((LatencyTuner.mk_ () feConst cfgA 48000 48000).write_metrics metricsStalled).max_latency_ < 19200 ∧
    ((((LatencyTuner.mk_ () feConst cfgA 48000 48000).write_metrics metricsStalled).update_).2 = true ∧
      (((LatencyTuner.mk_ () feConst cfgA 48000 48000).write_metrics metricsStalled).advance_stream 240).2 = true) :=
  ⟨by decide, by decide, by decide, by decide,
    C3_stalling_suppresses_violation
      ((LatencyTuner.mk_ () feConst cfgA 48000 48000).write_metrics metricsStalled)
      240 19200 (by decide) (by decide) (by decide) (Or.inr (by decide))⟩

/-- C4: advance_stream returns failure iff the update step ran during
that call and reported a bounds violation; in particular a call in which
the tuning interval has not yet elapsed (so no update step runs)
returns success. -/
theorem C4_advance_fails_iff_update_violation {σ : Type} (t : LatencyTuner σ)
    (n : Nat) :
    ((t.advance_stream n).2 = false ↔
      ((t.tick n).fires = true ∧ ((t.tick n).update_).2 = false)) ∧
    (t.stream_pos_ + n - t.update_pos_ < t.update_interval_ →
      (t.advance_stream n).2 = true) := by
  constructor
  · rw [advance_flag]
    rcases hf : (t.tick n).fires with _ | _ <;> simp [hf]
  · intro h
    rw [advance_flag]
    have hf : (t.tick n).fires = false := by
      simp only [LatencyTuner.fires, tick_update_interval, tick_update_pos,
        tick_stream_pos]
      simp only [decide_eq_false_iff_not]
      omega
    rw [hf]
    simp

/-- C4 witness: a call of 100 samples before the 240-sample interval has
elapsed returns success. -/
theorem C4_advance_fails_iff_update_violation_witness :
    (tunerA.advance_stream 100).2 = true :=
  (C4_advance_fails_iff_update_violation tunerA 100).2 (by decide)

/-- C5: with target_latency exactly zero the constructed tuner is valid,
every advance_stream call succeeds for every sequence of metrics, and
get_scaling returns 0 for the entire session. -/
theorem C5_zero_target_disables_all {σ : Type} (feInit : σ)
    (feUpdate : σ → Int → σ × Rat) (config : LatencyConfig) (sample_rate : Int)
    (report_interval : Nat) (es : List TunerEvent)
    (h0 : config.target_latency = 0) (hrate : 0 < sample_rate) :
    (LatencyTuner.mk_ feInit feUpdate config sample_rate report_interval).is_valid = true ∧
    (LatencyTuner.mk_ feInit feUpdate config sample_rate report_interval).all_ok es = true ∧
    ((LatencyTuner.mk_ feInit feUpdate config sample_rate report_interval).run es).get_scaling
      = 0 := by
  refine ⟨?_, ?_, ?_⟩
  · simp [LatencyTuner.mk_, LatencyTuner.is_valid, hrate]
  · apply all_ok_of_not_checking
    simp [LatencyTuner.mk_, h0]
  · have hcount := scaling_count_of_not_tuning es
      (LatencyTuner.mk_ feInit feUpdate config sample_rate report_interval)
      (by simp [LatencyTuner.mk_, h0])
    have hco := run_coeff_of_count_zero es _ hcount
    show ((LatencyTuner.mk_ feInit feUpdate config sample_rate report_interval).run es).freq_coeff_ = 0
    rw [hco]
    rfl

/-- C5 witness: a config with target zero, run over divergent metrics
and two blocks. -/
theorem C5_zero_target_disables_all_witness :
    ({ cfgA with target_latency := 0 } : LatencyConfig).target_latency = 0 ∧
    (0 : Int) < 48000 ∧
    ((LatencyTuner.mk_ () feConst { cfgA with target_latency := 0 } 48000 48000).is_valid = true ∧
      (LatencyTuner.mk_ () feConst { cfgA with target_latency := 0 } 48000 48000).all_ok
        [TunerEvent.write metricsDivergent, TunerEvent.advance 240,
          TunerEvent.advance 240] = true ∧
      ((LatencyTuner.mk_ () feConst { cfgA with target_latency := 0 } 48000 48000).run
        [TunerEvent.write metricsDivergent, TunerEvent.advance 240,
          TunerEvent.advance 240]).get_scaling = 0) :=
  ⟨rfl, by decide,
    C5_zero_target_disables_all () feConst { cfgA with target_latency := 0 }
      48000 48000
      [TunerEvent.write metricsDivergent, TunerEvent.advance 240,
        TunerEvent.advance 240] rfl (by decide)⟩

/-- C6: when the resolved profile is Intact no frequency estimator is
constructed, and get_scaling returns 0 for the entire session, whatever
blocks are advanced and metrics are written. -/
theorem C6_intact_no_estimator {σ : Type} (feInit : σ)
    (feUpdate : σ → Int → σ × Rat) (config : LatencyConfig) (sample_rate : Int)
    (report_interval : Nat) (es : List TunerEvent)
    (hp : config.tuner_profile = LatencyTunerProfile_Intact) :
    (LatencyTuner.mk_ feInit feUpdate config sample_rate report_interval).fe_ = none ∧
    ((LatencyTuner.mk_ feInit feUpdate config sample_rate report_interval).run es).get_scaling
      = 0 := by
  have hfe : (LatencyTuner.mk_ feInit feUpdate config sample_rate report_interval).fe_
      = none := by
    simp [LatencyTuner.mk_, hp]
  refine ⟨hfe, ?_⟩
  have hcount := scaling_count_of_fe_none es _ hfe
  have hco := run_coeff_of_count_zero es _ hcount
  show ((LatencyTuner.mk_ feInit feUpdate config sample_rate report_interval).run es).freq_coeff_ = 0
  rw [hco]
  rfl

/-- C6 witness: the fixture config with profile Intact, over a run with
metrics and blocks. -/
theorem C6_intact_no_estimator_witness :
    ({ cfgA with tuner_profile := LatencyTunerProfile_Intact } : LatencyConfig).tuner_profile
      = LatencyTunerProfile_Intact ∧
    ((LatencyTuner.mk_ () feConst
        { cfgA with tuner_profile := LatencyTunerProfile_Intact } 48000 48000).fe_ = none ∧
      ((LatencyTuner.mk_ () feConst
        { cfgA with tuner_profile := LatencyTunerProfile_Intact } 48000 48000).run
        [TunerEvent.write metricsSteady, TunerEvent.advance 240,
          TunerEvent.advance 240]).get_scaling = 0) :=
  ⟨rfl,
    C6_intact_no_estimator () feConst
      { cfgA with tuner_profile := LatencyTunerProfile_Intact } 48000 48000
      [TunerEvent.write metricsSteady, TunerEvent.advance 240,
        TunerEvent.advance 240] rfl⟩

/-- C7: for a run of advance_stream calls with a constant block size
that evenly divides the tuning interval, starting from a freshly
constructed tuner, the number of update-step invocations equals the
total samples processed divided by the interval; and in any single call
where the elapsed sample count since the last update equals the interval
exactly, the update step runs exactly once. -/
theorem C7_update_cadence {σ : Type} (t : LatencyTuner σ) (b k : Nat)
    (hs : t.stream_pos_ = 0) (hu : t.update_pos_ = 0)
    (hI : 0 < t.update_interval_) (hb : 0 < b)
    (hdvd : b ∣ t.update_interval_) :
    t.update_count (List.replicate k b) = k * b / t.update_interval_ ∧
    (∀ (u : LatencyTuner σ) (n : Nat),
      u.stream_pos_ + n - u.update_pos_ = u.update_interval_ →
      u.update_count [n] = 1) := by
  constructor
  · have h := update_count_replicate b hb k t hI hdvd
      (by rw [hs]; exact dvd_zero b) (by rw [hu, hs]; simp)
    rw [hs] at h
    simpa using h
  · intro u n hn
    simp only [LatencyTuner.update_count]
    have hf : (u.tick n).fires = true := by
      simp only [LatencyTuner.fires, tick_update_interval, tick_update_pos,
        tick_stream_pos]
      simp only [decide_eq_true_eq]
      omega
    rw [hf]
    simp

/-- C7 witness: blocks of 48 samples against the 240-sample interval of
the fixture tuner; ten blocks make 480 samples and exactly two
updates. -/
theorem C7_update_cadence_witness :
    tunerA.stream_pos_ = 0 ∧ tunerA.update_pos_ = 0 ∧
    0 < tunerA.update_interval_ ∧ 0 < 48 ∧ 48 ∣ tunerA.update_interval_ ∧
    (tunerA.update_count (List.replicate 10 48) = 10 * 48 / tunerA.update_interval_ ∧
      (∀ (u : LatencyTuner Unit) (n : Nat),
        u.stream_pos_ + n - u.update_pos_ = u.update_interval_ →
        u.update_count [n] = 1)) :=
  ⟨rfl, rfl, by decide, by decide, by decide,
    C7_update_cadence tunerA 48 10 rfl rfl (by decide) (by decide) (by decide)⟩

/-- C8: get_scaling returns the sentinel 0 iff no scaling computation
has executed since construction; otherwise it returns the coefficient
stored by the most recent scaling computation (whose clamped value,
under a tolerance below 1, is never 0). -/
theorem C8_sentinel_iff_no_scaling {σ : Type} (feInit : σ)
    (feUpdate : σ → Int → σ × Rat) (config : LatencyConfig) (sample_rate : Int)
    (report_interval : Nat) (es : List TunerEvent)
    (h0 : 0 ≤ config.scaling_tolerance) (h1 : config.scaling_tolerance < 1) :
    ((LatencyTuner.mk_ feInit feUpdate config sample_rate report_interval).run es).get_scaling
        = 0 ↔
      (LatencyTuner.mk_ feInit feUpdate config sample_rate report_interval).scaling_count es
        = 0 := by
  constructor
  · intro h
    by_contra hne
    have hpos : 0 <
        (LatencyTuner.mk_ feInit feUpdate config sample_rate report_interval).scaling_count es :=
      Nat.pos_of_ne_zero hne
    have hmem := run_coeff_of_count_pos es
      (LatencyTuner.mk_ feInit feUpdate config sample_rate report_interval) h0 hpos
    have hlo := hmem.1
    have hzero :
        ((LatencyTuner.mk_ feInit feUpdate config sample_rate report_interval).run es).freq_coeff_
          = 0 := h
    rw [hzero] at hlo
    have hδ : (LatencyTuner.mk_ feInit feUpdate config sample_rate report_interval).freq_coeff_max_delta_
        = config.scaling_tolerance := rfl
    rw [hδ] at hlo
    linarith
  · intro h
    have hco := run_coeff_of_count_zero es _ h
    show ((LatencyTuner.mk_ feInit feUpdate config sample_rate report_interval).run es).freq_coeff_ = 0
    rw [hco]
    rfl

/-- C8 witness: on the fixture run with one scaling execution, both
sides of the equivalence are false. -/
theorem C8_sentinel_iff_no_scaling_witness :
    0 ≤ cfgA.scaling_tolerance ∧ cfgA.scaling_tolerance < 1 ∧
    (((LatencyTuner.mk_ () feConst cfgA 48000 48000).run
        [TunerEvent.write metricsSteady, TunerEvent.advance 240]).get_scaling = 0 ↔
      (LatencyTuner.mk_ () feConst cfgA 48000 48000).scaling_count
        [TunerEvent.write metricsSteady, TunerEvent.advance 240] = 0) :=
  ⟨by norm_num [cfgA], by norm_num [cfgA],
    C8_sentinel_iff_no_scaling () feConst cfgA 48000 48000
      [TunerEvent.write metricsSteady, TunerEvent.advance 240]
      (by norm_num [cfgA]) (by norm_num [cfgA])⟩

/-- C9: write_metrics replaces the buffered snapshot wholesale, storing
the converted measurements and recomputing every observed flag, and
changes nothing else: the coefficient, the estimator, the stream
position and both phase counters are untouched, and neither the bounds
check nor the scaling computation runs. -/
theorem C9_write_metrics_frame {σ : Type} (t : LatencyTuner σ)
    (metrics : LatencyMetrics) :
    (t.write_metrics metrics).niq_latency_ =
      ns_2_stream_timestamp_delta t.sample_spec_ metrics.niq_latency ∧
    (t.write_metrics metrics).niq_stalling_ =
      ns_2_stream_timestamp_delta t.sample_spec_ metrics.niq_stalling ∧
    (t.write_metrics metrics).e2e_latency_ =
      ns_2_stream_timestamp_delta t.sample_spec_ metrics.e2e_latency ∧
    (t.write_metrics metrics).jitter_ =
      ns_2_stream_timestamp_delta t.sample_spec_ metrics.jitter ∧
    (t.write_metrics metrics).has_niq_latency_ =
      (t.has_niq_latency_ || decide (0 < metrics.niq_latency)
        || decide (0 < metrics.niq_stalling)) ∧
    (t.write_metrics metrics).has_e2e_latency_ =
      (t.has_e2e_latency_ || decide (0 < metrics.e2e_latency)) ∧
    (t.write_metrics metrics).has_jitter_ =
      (t.has_jitter_ || decide (0 < metrics.jitter)) ∧
    (t.write_metrics metrics).freq_coeff_ = t.freq_coeff_ ∧
    (t.write_metrics metrics).fe_ = t.fe_ ∧
    (t.write_metrics metrics).stream_pos_ = t.stream_pos_ ∧
    (t.write_metrics metrics).update_pos_ = t.update_pos_ ∧
    (t.write_metrics metrics).report_pos_ = t.report_pos_ :=
  ⟨rfl, rfl, rfl, rfl, rfl, rfl, rfl, rfl, rfl, rfl, rfl, rfl⟩

/-- C10: a default-constructed LatencyConfig has backend Default,
profile Default, the three tri-state durations -1, scaling_interval of
5 milliseconds (5000000 nanoseconds) and scaling_tolerance 0.005. -/
theorem C10_default_config :
    LatencyConfig.init.tuner_backend = LatencyTunerBackend_Default ∧
    LatencyConfig.init.tuner_profile = LatencyTunerProfile_Default ∧
    LatencyConfig.init.target_latency = -1 ∧
    LatencyConfig.init.latency_tolerance = -1 ∧
    LatencyConfig.init.stale_tolerance = -1 ∧
    LatencyConfig.init.scaling_interval = 5 * Millisecond ∧
    LatencyConfig.init.scaling_interval = 5000000 ∧
    LatencyConfig.init.scaling_tolerance = 5 / 1000 :=
  ⟨rfl, rfl, rfl, rfl, rfl, rfl, by decide, rfl⟩
